import Mathlib

/-!
Verification of the CRUD / query-dispatch core of the Food-waste-management
Streamlit application (src/App.py) against its specification.

The database engine, the Streamlit UI and the plotly chart renderer are
external collaborators; they are modelled abstractly:
  * scalar cell values are an inductive `Value` type with Python's
    cross-type equality (`False == 0`, `0.0 == 0`);
  * the relational store is an association list of named tables of rows,
    with transactional semantics (statements act on a pending state that
    becomes visible only at `commit`; an uncommitted pending state is
    discarded when the connection closes);
  * the engine's reaction to a statement run through `pd.read_sql` is an
    oracle (`Engine`), since arbitrary SQL text is out of scope;
  * Streamlit report calls (`st.success` / `st.warning` / `st.error`) are
    collected in a `Report` value.
Each Lean function mirrors the Python function of the same name.
-/

namespace FoodApp

/-- Scalar values as they appear in the app: Python `None`, `int`, `str`,
`bool`, `float` (floats are modelled exactly as rationals; the app never
produces a NaN/inf on these paths). -/
inductive Value where
  | vnone : Value
  | vint (n : Int) : Value
  | vstr (s : String) : Value
  | vbool (b : Bool) : Value
  | vfloat (q : Rat) : Value
deriving DecidableEq, Repr

/-- Numeric view used by Python `==`: `bool` is a subtype of `int`, and
`int`/`float` compare by value. -/
def Value.toNum : Value → Option Rat
  | .vint n => some (n : Rat)
  | .vbool b => some (if b then 1 else 0)
  | .vfloat q => some q
  | _ => none

/-- Python equality `a == b` between scalar values: numeric values compare
across `int` / `bool` / `float`; strings compare as strings; `None` equals
only `None`; no other cross-type pair is equal. -/
def pyEq (a b : Value) : Bool :=
  match a.toNum, b.toNum with
  | some x, some y => x == y
  | _, _ =>
    match a, b with
    | .vstr s, .vstr t => s == t
    | .vnone, .vnone => true
    | _, _ => false

/-- SQL equality used by the store for `WHERE col = v`: like `pyEq` except
that `NULL` compares equal to nothing (a `NULL = NULL` predicate is not
satisfied). -/
def sqlValEq (a b : Value) : Bool :=
  match a, b with
  | .vnone, _ => false
  | _, .vnone => false
  | _, _ => pyEq a b

/-- The membership test `v in [None, "", 0]` of the dict comprehensions in
`create_record` / `update_record` (Python `in` uses `==` against each
element). -/
def droppedValue (v : Value) : Bool :=
  pyEq v Value.vnone || pyEq v (Value.vstr "") || pyEq v (Value.vint 0)

/-- The dict comprehension
`{k: v for k, v in inputs.items() if v not in [None, "", 0]}`
shared by `create_record` and `update_record`. -/
def pyFilter (inputs : List (String × Value)) : List (String × Value) :=
  inputs.filter (fun kv => !droppedValue kv.2)

/-- Python truthiness of a scalar (`if param` in `analysis_query`). -/
def vTruthy : Value → Bool
  | .vnone => false
  | .vint n => n != 0
  | .vstr s => !s.isEmpty
  | .vbool b => b
  | .vfloat q => q != 0

/-- Rendering of a value inside an f-string message. -/
def Value.pyStr : Value → String
  | .vnone => "None"
  | .vint n => toString n
  | .vstr s => s
  | .vbool b => if b then "True" else "False"
  | .vfloat q => toString q

/-- A row: mapping from column name to value. -/
abbrev Row := List (String × Value)

/-- A materialized result set (a pandas DataFrame). -/
structure Table where
  cols : List String
  rows : List (List Value)
deriving DecidableEq, Repr

/-- `pd.DataFrame()`. -/
def Table.emptyDf : Table := ⟨[], []⟩

/-- pandas `df.empty`: true when either axis has length zero. -/
def Table.isEmpty (t : Table) : Bool := t.rows.isEmpty || t.cols.isEmpty

/-- The relational store: named tables of rows. -/
abbrev DB := List (String × List Row)

def DB.getTable : DB → String → Option (List Row)
  | [], _ => none
  | p :: rest, name => if p.1 == name then some p.2 else DB.getTable rest name

def DB.setTable : DB → String → List Row → DB
  | [], _, _ => []
  | p :: rest, name, rows =>
      if p.1 == name then (p.1, rows) :: rest
      else p :: DB.setTable rest name rows

/-- A Streamlit report surfaced to the user: `st.success` / `st.warning`
(soft condition) / `st.error` (hard condition). -/
inductive Report where
  | success (msg : String) : Report
  | warning (msg : String) : Report
  | error (msg : String) : Report
deriving DecidableEq, Repr

def Report.isWarning : Report → Bool
  | .warning _ => true
  | _ => false

def Report.isError : Report → Bool
  | .error _ => true
  | _ => false

/-- A statement handed to `cursor.execute` / `pd.read_sql`: the SQL text
and the positionally bound parameter values. -/
structure Stmt where
  sql : String
  params : List Value
deriving DecidableEq, Repr

/-- The external engine behind `pd.read_sql`: whether
`get_db_connection` succeeds, and the outcome of executing an arbitrary
SQL text with optionally bound parameters (`Except.error` models a raised
exception carrying its message). -/
structure Engine where
  connectOk : Bool
  exec : String → Option (List Value) → Except String Table

/-- Outcome of one `run_query` call: the returned DataFrame, the error
reported via `st.error` (if any), and whether the connection opened during
the call was closed before returning. -/
structure QueryOutcome where
  result : Table
  report : Option String
  connOpened : Bool
  connClosed : Bool
deriving DecidableEq, Repr

/-- `run_query(query, params=None)` of src/App.py (lines 37-46): inside a
`try`, open a connection, run `pd.read_sql`, close the connection, return
the DataFrame; on any exception report `Query Error: {e}` and return an
empty DataFrame.  There is no `finally`: `conn.close()` is reached only on
the success path.  When `get_db_connection` itself fails it reports and
calls `st.stop()`, whose `StopException` (str "") is caught by the same
`except`; no connection was opened in that case. -/
def run_query (engine : Engine) (query : String) (params : Option (List Value)) :
    QueryOutcome :=
  if engine.connectOk then
    match engine.exec query params with
    | .ok df =>
        { result := df, report := none, connOpened := true, connClosed := true }
    | .error e =>
        { result := Table.emptyDf, report := some ("Query Error: " ++ e),
          connOpened := true, connClosed := false }
  else
    { result := Table.emptyDf, report := some ("Query Error: "),
      connOpened := false, connClosed := false }

/-! ## CRUD engine (src/App.py lines 48-158)

Each operation opens its own connection and cursor; the connection has
autocommit off (the mysql-connector default), so every `cursor.execute`
acts on a pending transaction state that becomes durable only at
`conn.commit()`; when the function leaves through an `except` branch the
`finally` block closes the connection and the uncommitted pending state is
discarded.  `storeFail*` arguments are the oracle for the store rejecting
a statement for a reason outside the modelled semantics (constraint
violation, timeout, lost connection): when set, that `cursor.execute`
raises `mysql.connector.Error`. -/

/-- Value of column `col` in a row. -/
def rowLookup (r : Row) (col : String) : Option Value :=
  (List.find? (fun kv => kv.1 == col) r).map (fun kv => kv.2)

/-- Whether a row satisfies `WHERE col = rid`. -/
def rowMatches (col : String) (rid : Value) (r : Row) : Bool :=
  match rowLookup r col with
  | some v => sqlValEq v rid
  | none => false

/-- MySQL error text for a statement naming a table absent from the
database. -/
def tableMissingMsg (tbl : String) : String :=
  "1146 (42S02): Table " ++ tbl ++ " does not exist"

/-- Store semantics of `INSERT INTO tbl (cols) VALUES (vals)`: appends the
row; raises if the table does not exist. -/
def execInsert (db : DB) (tbl : String) (row : Row) : Except String DB :=
  match DB.getTable db tbl with
  | none => .error (tableMissingMsg tbl)
  | some rows => .ok (DB.setTable db tbl (rows ++ [row]))

/-- Effect of a `SET` clause on one row: overrides the listed columns. -/
def applySets (sets : List (String × Value)) (r : Row) : Row :=
  r.map (fun kv =>
    match List.find? (fun s => s.1 == kv.1) sets with
    | some s => (kv.1, s.2)
    | none => kv)

/-- Affected-row count of an UPDATE, per the MySQL default: the number of
matching rows whose content actually changed. -/
def updateRowcount (rows : List Row) (pk : String) (rid : Value)
    (sets : List (String × Value)) : Nat :=
  rows.countP (fun r => rowMatches pk rid r && decide (applySets sets r ≠ r))

/-- Store semantics of `UPDATE tbl SET sets WHERE pk = rid`: applies the
`SET` clause to every matching row; raises if the table does not exist. -/
def execUpdate (db : DB) (tbl pk : String) (rid : Value)
    (sets : List (String × Value)) : Except String (DB × Nat) :=
  match DB.getTable db tbl with
  | none => .error (tableMissingMsg tbl)
  | some rows =>
    .ok (DB.setTable db tbl
          (rows.map (fun r => if rowMatches pk rid r then applySets sets r else r)),
         updateRowcount rows pk rid sets)

/-- Store semantics of `DELETE FROM tbl WHERE col = rid`: removes every
matching row; the affected-row count is the number of rows removed. -/
def execDelete (db : DB) (tbl col : String) (rid : Value) :
    Except String (DB × Nat) :=
  match DB.getTable db tbl with
  | none => .error (tableMissingMsg tbl)
  | some rows =>
    .ok (DB.setTable db tbl (rows.filter (fun r => !rowMatches col rid r)),
         rows.countP (rowMatches col rid))

/-- The `primary_keys` dict of `update_record` / `delete_record`; a name
outside the fixed set raises `KeyError` on lookup. -/
def primary_keys : String → Option String
  | "Food_Listings" => some "Food_ID"
  | "Providers" => some "Provider_ID"
  | "Receivers" => some "Receiver_ID"
  | "Claims" => some "Claim_ID"
  | _ => none

/-- The f-string `No record found with {pk} = {record_id}` passed to
`st.warning` by `update_record` and `delete_record`. -/
def notFoundMsg (pk : String) (record_id : Value) : String :=
  "No record found with " ++ pk ++ " = " ++ record_id.pyStr

/-- The f-string `Record {record_id} updated successfully`. -/
def updatedMsg (record_id : Value) : String :=
  "Record " ++ record_id.pyStr ++ " updated successfully"

/-- The f-string `Record {record_id} deleted successfully from {table_name}`. -/
def deletedMsg (table_name : String) (record_id : Value) : String :=
  "Record " ++ record_id.pyStr ++ " deleted successfully from " ++ table_name

/-- Outcome of one CRUD call: the statements handed to `cursor.execute` in
order, whether `conn.commit()` was reached, the Streamlit report, and the
durable database state after the connection closes. -/
structure CrudResult where
  sent : List Stmt
  committed : Bool
  report : Report
  db : DB
deriving Repr

/-- The f-string `INSERT INTO {table_name} ({columns}) VALUES ({placeholders})`
of `create_record`. -/
def insertSqlText (table_name : String) (fr : List (String × Value)) : String :=
  "INSERT INTO " ++ table_name ++ " (" ++
    String.intercalate ", " (fr.map (fun kv => kv.1)) ++ ") VALUES (" ++
    String.intercalate ", " (fr.map (fun _ => "%s")) ++ ")"

/-- `create_record(table_name, inputs)` of src/App.py (lines 49-79).
Filters the inputs dict by `v not in [None, "", 0]`; warns and sends
nothing when nothing survives; otherwise builds the INSERT over the
surviving columns, executes it with the surviving values bound, and
commits.  Note: `create_record` performs no table-name validation (it
never consults `primary_keys`); an unknown table name reaches the store
and fails there with a `mysql.connector.Error`. -/
def create_record (db : DB) (table_name : String)
    (inputs : List (String × Value)) (storeFail : Bool) : CrudResult :=
  let filtered_inputs := pyFilter inputs
  if filtered_inputs.isEmpty then
    { sent := [], committed := false, report := .warning "No data to insert",
      db := db }
  else
    let stmt : Stmt :=
      ⟨insertSqlText table_name filtered_inputs,
       filtered_inputs.map (fun kv => kv.2)⟩
    if storeFail then
      { sent := [stmt], committed := false,
        report := .error "Error creating record: database error", db := db }
    else
      match execInsert db table_name filtered_inputs with
      | .error e =>
          { sent := [stmt], committed := false,
            report := .error ("Error creating record: " ++ e), db := db }
      | .ok db2 =>
          { sent := [stmt], committed := true,
            report := .success ("Record created successfully in " ++ table_name),
            db := db2 }

/-- The f-string `UPDATE {table_name} SET {set_clause} WHERE {pk}=%s` of
`update_record`. -/
def updateSqlText (table_name pk : String) (fr : List (String × Value)) : String :=
  "UPDATE " ++ table_name ++ " SET " ++
    String.intercalate ", " (fr.map (fun kv => kv.1 ++ "=%s")) ++
    " WHERE " ++ pk ++ "=%s"

/-- `update_record(table_name, record_id, inputs)` of src/App.py (lines
81-122).  The `primary_keys[table_name]` lookup comes first: an unknown
table raises `KeyError`, caught by the generic `except Exception` branch,
before any filtering or statement.  Then the same value filtering as
`create_record`; empty survivor set warns and sends nothing; otherwise
executes the UPDATE with the survivors and `record_id` bound, commits, and
reports success when `cursor.rowcount > 0` and the `No record found`
warning otherwise. -/
def update_record (db : DB) (table_name : String) (record_id : Value)
    (inputs : List (String × Value)) (storeFail : Bool) : CrudResult :=
  match primary_keys table_name with
  | none =>
      { sent := [], committed := false,
        report := .error ("Unexpected error: KeyError " ++ table_name), db := db }
  | some pk =>
    let filtered_inputs := pyFilter inputs
    if filtered_inputs.isEmpty then
      { sent := [], committed := false,
        report := .warning "No fields to update", db := db }
    else
      let stmt : Stmt :=
        ⟨updateSqlText table_name pk filtered_inputs,
         filtered_inputs.map (fun kv => kv.2) ++ [record_id]⟩
      if storeFail then
        { sent := [stmt], committed := false,
          report := .error "Error updating record: database error", db := db }
      else
        match execUpdate db table_name pk record_id filtered_inputs with
        | .error e =>
            { sent := [stmt], committed := false,
              report := .error ("Error updating record: " ++ e), db := db }
        | .ok (db2, rowcount) =>
            { sent := [stmt], committed := true,
              report :=
                if rowcount > 0 then .success (updatedMsg record_id)
                else .warning (notFoundMsg pk record_id),
              db := db2 }

/-- The statement `DELETE FROM Claims WHERE Food_ID=%s` sent by
`delete_record` for the `Food_Listings` table. -/
def claimsCleanupStmt (record_id : Value) : Stmt :=
  ⟨"DELETE FROM Claims WHERE Food_ID=%s", [record_id]⟩

/-- The primary-row statement `DELETE FROM {table_name} WHERE {pk}=%s` of
`delete_record`. -/
def deleteSqlText (table_name pk : String) : String :=
  "DELETE FROM " ++ table_name ++ " WHERE " ++ pk ++ "=%s"

/-- Second half of `delete_record`: execute the primary-row DELETE on the
pending state, commit, and report by the affected-row count of that
primary DELETE; any raise leaves the original durable state (`orig`)
untouched because `conn.commit()` is never reached. -/
def deletePrimary (orig pending : DB) (table_name pk : String)
    (record_id : Value) (sentSoFar : List Stmt) (storeFail : Bool) : CrudResult :=
  let stmt : Stmt := ⟨deleteSqlText table_name pk, [record_id]⟩
  if storeFail then
    { sent := sentSoFar ++ [stmt], committed := false,
      report := .error "Error deleting record: database error", db := orig }
  else
    match execDelete pending table_name pk record_id with
    | .error e =>
        { sent := sentSoFar ++ [stmt], committed := false,
          report := .error ("Error deleting record: " ++ e), db := orig }
    | .ok (db2, rowcount) =>
        { sent := sentSoFar ++ [stmt], committed := true,
          report :=
            if rowcount > 0 then .success (deletedMsg table_name record_id)
            else .warning (notFoundMsg pk record_id),
          db := db2 }

/-- `delete_record(table_name, record_id)` of src/App.py (lines 124-158).
`primary_keys[table_name]` lookup first (unknown table: `KeyError` via the
generic `except`, nothing sent).  When the table is `Food_Listings` it
unconditionally executes the dependent-Claims DELETE first; then the
primary-row DELETE; then a single `conn.commit()`; the success /
`No record found` report is decided by `cursor.rowcount` of the primary
DELETE (the last execute).  A raise at any point skips the commit, so the
durable state is the original one. -/
def delete_record (db : DB) (table_name : String) (record_id : Value)
    (storeFailDep storeFailPrimary : Bool) : CrudResult :=
  match primary_keys table_name with
  | none =>
      { sent := [], committed := false,
        report := .error ("Unexpected error: KeyError " ++ table_name), db := db }
  | some pk =>
    if table_name == "Food_Listings" then
      if storeFailDep then
        { sent := [claimsCleanupStmt record_id], committed := false,
          report := .error "Error deleting record: database error", db := db }
      else
        match execDelete db "Claims" "Food_ID" record_id with
        | .error e =>
            { sent := [claimsCleanupStmt record_id], committed := false,
              report := .error ("Error deleting record: " ++ e), db := db }
        | .ok (db1, _) =>
            deletePrimary db db1 table_name pk record_id
              [claimsCleanupStmt record_id] storeFailPrimary
    else
      deletePrimary db db table_name pk record_id [] storeFailPrimary

/-! ## Analysis Query Catalog (src/App.py lines 166-365)

`analysis_query(option, param=None)` looks the SQL template up in the
`queries` dict (16 names), runs it through `run_query` with
`params=(param,) if param else None`, and builds a plotly figure through
the `charts` dict (12 names) only when the name has a chart rule and the
DataFrame is non-empty; an unknown name returns `(None, None)`.  Chart
construction itself is external (plotly): a built figure is modelled as
the pair of the analysis name and the data it was built from.  The SQL
texts are the source's, with runs of whitespace collapsed. -/

/-- The `queries` dict of `analysis_query`: name → SQL template. -/
def analysis_queries : String → Option String
  | "Providers & Receivers by City" => some
      "SELECT City, (SELECT COUNT(*) FROM Providers p2 WHERE p2.City = p.City) AS Providers_Count, (SELECT COUNT(*) FROM Receivers r WHERE r.City = p.City) AS Receivers_Count FROM Providers p GROUP BY City;"
  | "Top Food Provider Type by Quantity" => some
      "SELECT Type, SUM(f.Quantity) AS Total_Quantity FROM Providers p JOIN Food_Listings f ON p.Provider_ID=f.Provider_ID GROUP BY Type ORDER BY Total_Quantity DESC LIMIT 5;"
  | "Provider Contact Info by City" => some
      "SELECT Name, Contact, Address FROM Providers WHERE City = %s;"
  | "Top Receivers by Claimed Food" => some
      "SELECT r.Name, r.Contact, SUM(f.Quantity) AS Total_Claimed FROM Receivers r JOIN Claims c ON r.Receiver_ID=c.Receiver_ID JOIN Food_Listings f ON c.Food_ID=f.Food_ID GROUP BY r.Receiver_ID ORDER BY Total_Claimed DESC LIMIT 10;"
  | "Total Food Quantity Available" => some
      "SELECT SUM(Quantity) AS Total_Food_Quantity FROM Food_Listings;"
  | "City with Most Food Listings" => some
      "SELECT p.City, COUNT(*) AS Listings_Count FROM Providers p JOIN Food_Listings f ON p.Provider_ID = f.Provider_ID GROUP BY p.City ORDER BY Listings_Count DESC LIMIT 1;"
  | "Top Food Types Available" => some
      "SELECT Food_Type, COUNT(*) AS Count FROM Food_Listings GROUP BY Food_Type ORDER BY Count DESC LIMIT 5;"
  | "Claims Count per Food Item" => some
      "SELECT f.Food_Name, COUNT(*) AS Claims_Count FROM Food_Listings f JOIN Claims c ON f.Food_ID = c.Food_ID GROUP BY f.Food_ID;"
  | "Top Provider by Successful Claims" => some
      "SELECT p.Name, COUNT(*) AS Successful_Claims FROM Providers p JOIN Food_Listings f ON p.Provider_ID = f.Provider_ID JOIN Claims c ON f.Food_ID = c.Food_ID WHERE c.Status = 'Completed' GROUP BY p.Provider_ID ORDER BY Successful_Claims DESC LIMIT 1;"
  | "Claims Status Percentage" => some
      "SELECT Status, COUNT(*) AS Count, ROUND(100 * COUNT(*) / (SELECT COUNT(*) FROM Claims), 2) AS Percentage FROM Claims GROUP BY Status;"
  | "Avg Quantity Claimed per Receiver" => some
      "SELECT r.Name, AVG(f.Quantity) AS Avg_Quantity_Claimed FROM Receivers r JOIN Claims c ON r.Receiver_ID = c.Receiver_ID JOIN Food_Listings f ON c.Food_ID = f.Food_ID GROUP BY r.Receiver_ID;"
  | "Most Claimed Meal Type" => some
      "SELECT f.Meal_Type, COUNT(*) AS Claims_Count FROM Food_Listings f JOIN Claims c ON f.Food_ID = c.Food_ID GROUP BY f.Meal_Type ORDER BY Claims_Count DESC;"
  | "Total Food Donated by Provider" => some
      "SELECT p.Name, SUM(f.Quantity) AS Total_Quantity_Donated FROM Providers p JOIN Food_Listings f ON p.Provider_ID = f.Provider_ID GROUP BY p.Provider_ID ORDER BY Total_Quantity_Donated DESC;"
  | "Top Cities by Claimed Food Quantity" => some
      "SELECT p.City, SUM(f.Quantity) AS Total_Claimed FROM Providers p JOIN Food_Listings f ON p.Provider_ID = f.Provider_ID JOIN Claims c ON f.Food_ID = c.Food_ID WHERE c.Status='Completed' GROUP BY p.City ORDER BY Total_Claimed DESC LIMIT 5;"
  | "Providers with Most Food Listings" => some
      "SELECT p.Name, COUNT(f.Food_ID) AS Listings_Count FROM Providers p JOIN Food_Listings f ON p.Provider_ID = f.Provider_ID GROUP BY p.Provider_ID ORDER BY Listings_Count DESC LIMIT 5;"
  | "Expired or Soon-to-Expire Food Items" => some
      "SELECT Food_Name, Quantity, Expiry_Date, Location FROM Food_Listings WHERE Expiry_Date <= DATE_ADD(CURDATE(), INTERVAL 2 DAY) ORDER BY Expiry_Date ASC;"
  | _ => none

/-- Membership in the `charts` dict of `analysis_query`: the 12 analysis
names that come with a chart-construction rule. -/
def analysis_charts (option : String) : Bool :=
  option == "Providers & Receivers by City" ||
  option == "Top Food Provider Type by Quantity" ||
  option == "Top Receivers by Claimed Food" ||
  option == "Top Food Types Available" ||
  option == "Avg Quantity Claimed per Receiver" ||
  option == "Claims Status Percentage" ||
  option == "Claims Count per Food Item" ||
  option == "Most Claimed Meal Type" ||
  option == "Total Food Donated by Provider" ||
  option == "Top Cities by Claimed Food Quantity" ||
  option == "Providers with Most Food Listings" ||
  option == "Expired or Soon-to-Expire Food Items"

/-- Whether a character stream contains a `%s` parameter slot. -/
def hasSlotAux : List Char → Bool
  | '%' :: 's' :: _ => true
  | _ :: rest => hasSlotAux rest
  | [] => false

/-- Whether a SQL template expects a positionally bound parameter (it
contains a `%s` placeholder). -/
def templateHasSlot (s : String) : Bool := hasSlotAux s.data

/-- A built chart, abstractly: which analysis rule produced it and the
DataFrame it was built from (the plotly call itself is external). -/
structure ChartSpec where
  option : String
  data : Table
deriving DecidableEq, Repr

/-- Outcome of one `analysis_query` call: the `run_query` invocation it
made (SQL text and bound parameter tuple), if any, and the returned
`(df, fig)` pair (`(none, none)` for an unknown name). -/
structure AnalysisResult where
  call : Option (String × Option (List Value))
  df : Option Table
  fig : Option ChartSpec
deriving Repr

/-- `analysis_query(option, param=None)` of src/App.py (lines 166-365).
The parameter tuple is `(param,)` when `param` is truthy and `None`
otherwise — the template itself is not consulted for a `%s` slot.  A
figure is built only when the name is in `charts` and the DataFrame is
non-empty. -/
def analysis_query (engine : Engine) (option : String) (param : Value) :
    AnalysisResult :=
  match analysis_queries option with
  | some sql =>
      let params : Option (List Value) := if vTruthy param then some [param] else none
      let df := (run_query engine sql params).result
      { call := some (sql, params), df := some df,
        fig :=
          if analysis_charts option && !df.isEmpty then
            some ⟨option, df⟩
          else
            none }
  | none => { call := none, df := none, fig := none }

end FoodApp

open FoodApp

/-! ## Concrete inputs used by witnesses and counterexamples -/

/-- Engine that accepts the connection but rejects every statement with a
syntax error, as MySQL does for malformed SQL text. -/
def syntaxErrorEngine : Engine :=
  ⟨true, fun _ _ => Except.error "1064 (42000): You have an error in your SQL syntax"⟩

/-- Engine whose every statement succeeds with an empty result set. -/
def constEmptyEngine : Engine := ⟨true, fun _ _ => .ok Table.emptyDf⟩

/-- A store holding the four schema tables, all empty. -/
def db0 : DB :=
  [("Food_Listings", []), ("Providers", []), ("Receivers", []), ("Claims", [])]

/-- A store with one food listing (Food_ID 1) and one claim referencing
the — no longer listed — Food_ID 7. -/
def dbW : DB :=
  [("Food_Listings", [[("Food_ID", Value.vint 1), ("Food_Name", Value.vstr "Rice")]]),
   ("Providers", []), ("Receivers", []),
   ("Claims", [[("Claim_ID", Value.vint 3), ("Food_ID", Value.vint 7)]])]

/-! ## Store lemmas -/

/-- Writing one table leaves every other table unchanged. -/
theorem getTable_setTable_ne (db : DB) (n m : String) (rows : List Row)
    (h : n ≠ m) : DB.getTable (DB.setTable db n rows) m = DB.getTable db m := by
  induction db with
  | nil => rfl
  | cons p rest ih =>
      obtain ⟨a, b⟩ := p
      by_cases hp : a = n
      · subst hp
        have hm : (a == m) = false := by
          simp only [beq_eq_false_iff_ne, ne_eq]
          exact h
        simp [DB.setTable, DB.getTable, hm]
      · have hp2 : (a == n) = false := by
          simp only [beq_eq_false_iff_ne, ne_eq]
          exact hp
        by_cases hm : a = m
        · simp [DB.setTable, DB.getTable, hp2, hm, Ne.symm h]
        · have hm2 : (a == m) = false := by
            simp only [beq_eq_false_iff_ne, ne_eq]
            exact hm
          simp [DB.setTable, DB.getTable, hp2, hm2, ih]

/-- Writing back a table's own current rows is a no-op. -/
theorem setTable_getTable_self (db : DB) (n : String) (rows : List Row)
    (h : DB.getTable db n = some rows) : DB.setTable db n rows = db := by
  induction db with
  | nil => simp [DB.getTable] at h
  | cons p rest ih =>
      obtain ⟨a, b⟩ := p
      by_cases hp : a = n
      · subst hp
        simp [DB.getTable] at h
        simp [DB.setTable, h]
      · have hp2 : (a == n) = false := by
          simp only [beq_eq_false_iff_ne, ne_eq]
          exact hp
        simp [DB.getTable, hp2] at h
        simp [DB.setTable, hp2, ih h]

/-- Mapping a function that fixes every element of a list is the identity. -/
theorem list_map_id_of_mem {α : Type} (l : List α) (f : α → α)
    (h : ∀ a ∈ l, f a = a) : l.map f = l := by
  induction l with
  | nil => rfl
  | cons x xs ih =>
      simp only [List.map_cons]
      rw [h x (by simp), ih (fun a ha => h a (by simp [ha]))]

/-- An UPDATE whose affected-row count is zero does not change the rows. -/
theorem update_map_id (rows : List Row) (pk : String) (rid : Value)
    (sets : List (String × Value)) (hz : updateRowcount rows pk rid sets = 0) :
    rows.map (fun r => if rowMatches pk rid r then applySets sets r else r) = rows := by
  have h := List.countP_eq_zero.mp hz
  apply list_map_id_of_mem
  intro r hr
  by_cases hm : rowMatches pk rid r = true
  · have h2 := h r hr
    simp [hm] at h2
    simp [hm, h2]
  · simp [hm]

/-! ## Claims -/

/-- C1: for every engine behaviour, SQL text and optional parameter tuple,
`run_query` returns rather than raising past its own boundary: either the
materialized result table with no error report, or — on any execution
failure, including syntactically invalid SQL and connection failure — the
empty table together with a reported error message. -/
theorem run_query_total_or_reported (engine : Engine) (query : String)
    (params : Option (List Value)) :
    (∃ t, engine.exec query params = .ok t ∧
        run_query engine query params =
          { result := t, report := none, connOpened := true, connClosed := true }) ∨
      ((run_query engine query params).result = Table.emptyDf ∧
        ∃ m, (run_query engine query params).report = some m) := by
  unfold run_query
  by_cases hc : engine.connectOk
  · simp only [hc, if_true]
    cases hex : engine.exec query params with
    | ok t => exact Or.inl ⟨t, rfl, rfl⟩
    | error e => exact Or.inr ⟨rfl, _, rfl⟩
  · simp only [hc, if_false]
    exact Or.inr ⟨rfl, _, rfl⟩

/-- C5: evaluation of `run_query` at a failing input, against the claim
that the connection opened at the start of the call is closed on every
path.  `run_query` has no `finally` clause, so on the path where statement
execution raises (here the malformed text `SELEC * FORM x`) the connection
is NOT closed before returning — it leaks — while the error is still
reported and the empty table returned. -/
theorem run_query_leaks_connection_on_error :
    (run_query syntaxErrorEngine "SELEC * FORM x" none).connOpened = true ∧
      (run_query syntaxErrorEngine "SELEC * FORM x" none).connClosed = false ∧
      (run_query syntaxErrorEngine "SELEC * FORM x" none).result = Table.emptyDf ∧
      (run_query syntaxErrorEngine "SELEC * FORM x" none).report =
        some "Query Error: 1064 (42000): You have an error in your SQL syntax" := by
  refine ⟨rfl, rfl, rfl, rfl⟩

/-- C2: for every store and record id, `delete_record("Food_Listings", id)`
sends the dependent `DELETE FROM Claims WHERE Food_ID=%s` first and the
primary-key DELETE second — whether or not a matching Food_Listings row
exists — commits both, and reports the `No record found` warning exactly
when the primary DELETE affected zero rows, independent of how many Claims
rows were removed. -/
theorem delete_food_listing_cascades (db : DB) (rid : Value) (cRows fRows : List Row)
    (hc : DB.getTable db "Claims" = some cRows)
    (hf : DB.getTable db "Food_Listings" = some fRows) :
    (delete_record db "Food_Listings" rid false false).sent =
        [claimsCleanupStmt rid, ⟨deleteSqlText "Food_Listings" "Food_ID", [rid]⟩] ∧
      (delete_record db "Food_Listings" rid false false).db =
        DB.setTable
          (DB.setTable db "Claims" (cRows.filter (fun r => !rowMatches "Food_ID" rid r)))
          "Food_Listings" (fRows.filter (fun r => !rowMatches "Food_ID" rid r)) ∧
      (fRows.countP (rowMatches "Food_ID" rid) = 0 →
        (delete_record db "Food_Listings" rid false false).report =
          Report.warning (notFoundMsg "Food_ID" rid)) ∧
      (fRows.countP (rowMatches "Food_ID" rid) ≠ 0 →
        (delete_record db "Food_Listings" rid false false).report =
          Report.success (deletedMsg "Food_Listings" rid)) := by
  have hdel1 : execDelete db "Claims" "Food_ID" rid =
      .ok (DB.setTable db "Claims" (cRows.filter (fun r => !rowMatches "Food_ID" rid r)),
           cRows.countP (rowMatches "Food_ID" rid)) := by
    unfold execDelete
    rw [hc]
  have hget : DB.getTable
      (DB.setTable db "Claims" (cRows.filter (fun r => !rowMatches "Food_ID" rid r)))
      "Food_Listings" = some fRows := by
    rw [getTable_setTable_ne _ _ _ _ (by decide)]
    exact hf
  have hdel2 : execDelete
      (DB.setTable db "Claims" (cRows.filter (fun r => !rowMatches "Food_ID" rid r)))
      "Food_Listings" "Food_ID" rid =
      .ok (DB.setTable
            (DB.setTable db "Claims" (cRows.filter (fun r => !rowMatches "Food_ID" rid r)))
            "Food_Listings" (fRows.filter (fun r => !rowMatches "Food_ID" rid r)),
           fRows.countP (rowMatches "Food_ID" rid)) := by
    unfold execDelete
    rw [hget]
  have hmain : delete_record db "Food_Listings" rid false false =
      deletePrimary db
        (DB.setTable db "Claims" (cRows.filter (fun r => !rowMatches "Food_ID" rid r)))
        "Food_Listings" "Food_ID" rid [claimsCleanupStmt rid] false := by
    show (match execDelete db "Claims" "Food_ID" rid with
      | Except.error e =>
          ({ sent := [claimsCleanupStmt rid], committed := false,
             report := .error ("Error deleting record: " ++ e), db := db } : CrudResult)
      | Except.ok (db1, _) =>
          deletePrimary db db1 "Food_Listings" "Food_ID" rid
            [claimsCleanupStmt rid] false) = _
    rw [hdel1]
  rw [hmain]
  unfold deletePrimary
  rw [hdel2]
  refine ⟨rfl, rfl, ?_, ?_⟩
  · intro hz
    rw [hz]
    rfl
  · intro hnz
    show (if fRows.countP (rowMatches "Food_ID" rid) > 0
        then Report.success (deletedMsg "Food_Listings" rid)
        else Report.warning (notFoundMsg "Food_ID" rid)) =
      Report.success (deletedMsg "Food_Listings" rid)
    rw [if_pos (Nat.pos_of_ne_zero hnz)]

/-- C2 witness: deleting Food_ID 7 from a store whose Food_Listings has no
row 7 but whose Claims still references it yields the `No record found`
warning. -/
theorem delete_food_listing_cascades_witness :
    DB.getTable dbW "Claims" = some [[("Claim_ID", Value.vint 3), ("Food_ID", Value.vint 7)]] ∧
      DB.getTable dbW "Food_Listings" =
        some [[("Food_ID", Value.vint 1), ("Food_Name", Value.vstr "Rice")]] ∧
      (delete_record dbW "Food_Listings" (Value.vint 7) false false).report =
        Report.warning (notFoundMsg "Food_ID" (Value.vint 7)) := by
  refine ⟨by decide, by decide, ?_⟩
  exact (delete_food_listing_cascades dbW (Value.vint 7)
    [[("Claim_ID", Value.vint 3), ("Food_ID", Value.vint 7)]]
    [[("Food_ID", Value.vint 1), ("Food_Name", Value.vstr "Rice")]]
    (by decide) (by decide)).2.2.1 (by decide)

/-- C3: for every store, table of the CRUD set, and field map, both
`create_record` and `update_record` drop every entry whose value is null,
the empty string, or the number zero before building the statement; when
nothing survives the filtering no statement is sent and a warning is
reported; otherwise `create_record` issues exactly one INSERT whose bound
values are exactly the surviving entries (none of them a dropped value). -/
theorem crud_field_filtering (db : DB) (tbl pk : String) (rid : Value)
    (F : List (String × Value)) (sf : Bool) (hpk : primary_keys tbl = some pk) :
    (∀ kv ∈ F, (kv.2 = Value.vnone ∨ kv.2 = Value.vstr "" ∨ kv.2 = Value.vint 0) →
      kv ∉ pyFilter F) ∧
      (pyFilter F = [] →
        (create_record db tbl F sf).sent = [] ∧
        (create_record db tbl F sf).report = Report.warning "No data to insert" ∧
        (update_record db tbl rid F sf).sent = [] ∧
        (update_record db tbl rid F sf).report = Report.warning "No fields to update") ∧
      (pyFilter F ≠ [] →
        (create_record db tbl F sf).sent =
          [⟨insertSqlText tbl (pyFilter F), (pyFilter F).map (fun kv => kv.2)⟩] ∧
        ∀ stmt ∈ (create_record db tbl F sf).sent, ∀ v ∈ stmt.params,
          droppedValue v = false) := by
  refine ⟨?_, ?_, ?_⟩
  · intro kv hkv hd hmem
    obtain ⟨k, v⟩ := kv
    rw [pyFilter, List.mem_filter] at hmem
    obtain ⟨-, hp⟩ := hmem
    rcases hd with h1 | h1 | h1 <;> simp only at h1 <;> rw [h1] at hp
    · exact absurd (show (!droppedValue Value.vnone) = true from hp) (by decide)
    · exact absurd (show (!droppedValue (Value.vstr "")) = true from hp) (by decide)
    · exact absurd (show (!droppedValue (Value.vint 0)) = true from hp) (by decide)
  · intro hempty
    have hemp : (pyFilter F).isEmpty = true := by rw [hempty]; rfl
    refine ⟨?_, ?_, ?_, ?_⟩ <;> simp [create_record, update_record, hpk, hemp]
  · intro hne
    have hemp : (pyFilter F).isEmpty = false := by
      cases hcase : (pyFilter F).isEmpty
      · rfl
      · exact absurd (List.isEmpty_iff.mp hcase) hne
    have hsent : (create_record db tbl F sf).sent =
        [⟨insertSqlText tbl (pyFilter F), (pyFilter F).map (fun kv => kv.2)⟩] := by
      cases sf with
      | true => simp [create_record, hemp]
      | false =>
          cases hexec : execInsert db tbl (pyFilter F) with
          | error e => simp [create_record, hemp, hexec]
          | ok db2 => simp [create_record, hemp, hexec]
    refine ⟨hsent, ?_⟩
    intro stmt hstmt v hv
    rw [hsent, List.mem_singleton] at hstmt
    subst hstmt
    simp only [List.mem_map] at hv
    obtain ⟨kv, hkv, hkv2⟩ := hv
    rw [pyFilter, List.mem_filter] at hkv
    obtain ⟨-, hp⟩ := hkv
    rw [← hkv2]
    revert hp
    cases droppedValue kv.2 <;> simp

/-- C3 witness: creating a Providers record whose `Contact` field is the
empty string sends exactly one INSERT over the two surviving columns. -/
theorem crud_field_filtering_witness :
    pyFilter [("Provider_ID", Value.vint 101), ("Name", Value.vstr "Acme Foods"),
        ("Contact", Value.vstr "")] ≠ [] ∧
      (create_record db0 "Providers"
        [("Provider_ID", Value.vint 101), ("Name", Value.vstr "Acme Foods"),
         ("Contact", Value.vstr "")] false).sent =
        [⟨"INSERT INTO Providers (Provider_ID, Name) VALUES (%s, %s)",
          [Value.vint 101, Value.vstr "Acme Foods"]⟩] := by
  have h := (crud_field_filtering db0 "Providers" "Provider_ID" (Value.vint 1)
    [("Provider_ID", Value.vint 101), ("Name", Value.vstr "Acme Foods"),
     ("Contact", Value.vstr "")] false rfl).2.2 (by decide)
  exact ⟨by decide, h.1.trans (by decide)⟩

/-- C4: for every store, CRUD table present in the store, record id and
field map with a non-empty survivor set, if the executed UPDATE affects
zero rows then `update_record` reports the `No record found` warning — a
warning, not a hard error — the statement having reached the store, and
the durable store state is unchanged. -/
theorem update_missing_record_warns (db : DB) (tbl pk : String) (rid : Value)
    (F : List (String × Value)) (rows : List Row)
    (hpk : primary_keys tbl = some pk)
    (hrows : DB.getTable db tbl = some rows)
    (hne : pyFilter F ≠ [])
    (hz : updateRowcount rows pk rid (pyFilter F) = 0) :
    (update_record db tbl rid F false).sent =
        [⟨updateSqlText tbl pk (pyFilter F), (pyFilter F).map (fun kv => kv.2) ++ [rid]⟩] ∧
      (update_record db tbl rid F false).report = Report.warning (notFoundMsg pk rid) ∧
      (update_record db tbl rid F false).report.isWarning = true ∧
      (update_record db tbl rid F false).db = db := by
  have hemp : (pyFilter F).isEmpty = false := by
    cases hcase : (pyFilter F).isEmpty
    · rfl
    · exact absurd (List.isEmpty_iff.mp hcase) hne
  have hexec : execUpdate db tbl pk rid (pyFilter F) =
      .ok (DB.setTable db tbl
            (rows.map (fun r => if rowMatches pk rid r then applySets (pyFilter F) r else r)),
           updateRowcount rows pk rid (pyFilter F)) := by
    unfold execUpdate
    rw [hrows]
  have hdb2 : DB.setTable db tbl
      (rows.map (fun r => if rowMatches pk rid r then applySets (pyFilter F) r else r)) = db := by
    rw [update_map_id rows pk rid (pyFilter F) hz]
    exact setTable_getTable_self db tbl rows hrows
  simp [update_record, hpk, hemp, hexec, hz, hdb2, Report.isWarning]

/-- C4 witness: updating Provider_ID 99 in an empty Providers table warns
`No record found` and leaves the store unchanged. -/
theorem update_missing_record_warns_witness :
    pyFilter [("Name", Value.vstr "Acme")] ≠ [] ∧
      (update_record dbW "Providers" (Value.vint 99)
        [("Name", Value.vstr "Acme")] false).report =
        Report.warning (notFoundMsg "Provider_ID" (Value.vint 99)) ∧
      (update_record dbW "Providers" (Value.vint 99)
        [("Name", Value.vstr "Acme")] false).db = dbW := by
  have h := update_missing_record_warns dbW "Providers" "Provider_ID" (Value.vint 99)
    [("Name", Value.vstr "Acme")] [] rfl (by decide) (by decide) (by decide)
  exact ⟨by decide, h.2.1, h.2.2.2⟩

/-- C6 counterexample: the claim that every CRUD operation on a table name
outside the fixed set fails without sending a statement to the store is
false for `create_record`: it performs no table-name validation (it never
consults `primary_keys`), so for the unknown table `Menu` it sends the
INSERT to the store, which rejects it. -/
theorem create_unknown_table_reaches_store :
    primary_keys "Menu" = none ∧
      (create_record db0 "Menu" [("Food_ID", Value.vint 1)] false).sent ≠ [] ∧
      (create_record db0 "Menu" [("Food_ID", Value.vint 1)] false).report =
        Report.error ("Error creating record: " ++ tableMissingMsg "Menu") := by
  refine ⟨rfl, by decide, by decide⟩

/-- C6 (amended): for every table name outside the fixed CRUD set,
`update_record` and `delete_record` fail before sending any statement (the
`primary_keys` lookup raises `KeyError`, reported as an unexpected error)
and leave the store unchanged, while `create_record` does not validate the
table name: it sends its INSERT to the store, which fails it with an
unknown-table error, leaving the store unchanged. -/
theorem unknown_table_crud (db : DB) (tbl : String) (rid : Value)
    (F : List (String × Value)) (sf sfd sfp : Bool)
    (hpk : primary_keys tbl = none)
    (hdb : DB.getTable db tbl = none)
    (hne : pyFilter F ≠ []) :
    (update_record db tbl rid F sf).sent = [] ∧
      (update_record db tbl rid F sf).report =
        Report.error ("Unexpected error: KeyError " ++ tbl) ∧
      (update_record db tbl rid F sf).db = db ∧
      (delete_record db tbl rid sfd sfp).sent = [] ∧
      (delete_record db tbl rid sfd sfp).report =
        Report.error ("Unexpected error: KeyError " ++ tbl) ∧
      (delete_record db tbl rid sfd sfp).db = db ∧
      (create_record db tbl F false).sent =
        [⟨insertSqlText tbl (pyFilter F), (pyFilter F).map (fun kv => kv.2)⟩] ∧
      (create_record db tbl F false).report =
        Report.error ("Error creating record: " ++ tableMissingMsg tbl) ∧
      (create_record db tbl F false).db = db := by
  have hemp : (pyFilter F).isEmpty = false := by
    cases hcase : (pyFilter F).isEmpty
    · rfl
    · exact absurd (List.isEmpty_iff.mp hcase) hne
  have hexec : execInsert db tbl (pyFilter F) = .error (tableMissingMsg tbl) := by
    unfold execInsert
    rw [hdb]
  simp [update_record, delete_record, create_record, hpk, hdb, hemp, hexec]

/-- C6 witness: on the unknown table `Menu`, update and delete send
nothing while create sends its INSERT. -/
theorem unknown_table_crud_witness :
    primary_keys "Menu" = none ∧
      (update_record db0 "Menu" (Value.vint 1) [("Name", Value.vstr "A")] false).sent = [] ∧
      (delete_record db0 "Menu" (Value.vint 1) false false).sent = [] ∧
      (create_record db0 "Menu" [("Name", Value.vstr "A")] false).sent ≠ [] := by
  have h := unknown_table_crud db0 "Menu" (Value.vint 1) [("Name", Value.vstr "A")]
    false false false rfl (by decide) (by decide)
  refine ⟨rfl, h.1, h.2.2.2.1, ?_⟩
  rw [h.2.2.2.2.2.2.1]
  decide

/-- C7: for every known analysis name, engine behaviour and parameter,
`analysis_query` returns `(table, none)` whenever the executed query's
result table is empty — whether or not the name has a chart rule — and a
chart is built only from a non-empty result of a name that has a chart
rule. -/
theorem analysis_empty_result_no_chart (engine : Engine) (option : String)
    (param : Value) (sql : String) (h : analysis_queries option = some sql) :
    (∀ t, (analysis_query engine option param).df = some t → t.isEmpty = true →
        (analysis_query engine option param).fig = none) ∧
      (∀ c, (analysis_query engine option param).fig = some c →
        analysis_charts option = true ∧
          ∃ t, (analysis_query engine option param).df = some t ∧
            t.isEmpty = false ∧ c = ⟨option, t⟩) := by
  constructor
  · intro t ht hempty
    simp only [analysis_query, h] at ht ⊢
    rw [Option.some_inj] at ht
    rw [← ht] at hempty
    simp [hempty]
  · intro c hc
    simp only [analysis_query, h] at hc ⊢
    by_cases hch : (analysis_charts option &&
        !((run_query engine sql (if vTruthy param then some [param] else none)).result).isEmpty) = true
    · rw [if_pos hch] at hc
      rw [Option.some_inj] at hc
      rw [Bool.and_eq_true] at hch
      refine ⟨hch.1, (run_query engine sql (if vTruthy param then some [param] else none)).result,
        rfl, ?_, hc.symm⟩
      rcases hch with ⟨-, h2⟩
      cases hcase : ((run_query engine sql (if vTruthy param then some [param] else none)).result).isEmpty
      · rfl
      · rw [hcase] at h2
        exact absurd h2 (by decide)
    · rw [if_neg hch] at hc
      exact absurd hc (by simp)

/-- C7 witness: the charted analysis `Providers & Receivers by City`
returns no figure when the engine yields an empty DataFrame. -/
theorem analysis_empty_result_no_chart_witness :
    analysis_charts "Providers & Receivers by City" = true ∧
      (analysis_query constEmptyEngine "Providers & Receivers by City" Value.vnone).df =
        some Table.emptyDf ∧
      Table.emptyDf.isEmpty = true ∧
      (analysis_query constEmptyEngine "Providers & Receivers by City" Value.vnone).fig =
        none := by
  refine ⟨by decide, rfl, rfl, ?_⟩
  exact (analysis_empty_result_no_chart constEmptyEngine "Providers & Receivers by City"
    Value.vnone _ rfl).1 Table.emptyDf rfl rfl

/-- C8 counterexample: the claim that `analysis_query` binds the parameter
positionally if and only if the template expects one is false in both
directions at concrete inputs: for `Total Food Quantity Available` (whose
template has no `%s` slot) a truthy parameter is still bound, and for
`Provider Contact Info by City` (whose template has a `%s` slot) the falsy
parameter `""` is not bound. -/
theorem analysis_param_binding_ignores_template :
    (analysis_query constEmptyEngine "Total Food Quantity Available"
        (Value.vstr "Chennai")).call =
      some ("SELECT SUM(Quantity) AS Total_Food_Quantity FROM Food_Listings;",
        some [Value.vstr "Chennai"]) ∧
      templateHasSlot "SELECT SUM(Quantity) AS Total_Food_Quantity FROM Food_Listings;" = false ∧
      (analysis_query constEmptyEngine "Provider Contact Info by City"
        (Value.vstr "")).call =
        some ("SELECT Name, Contact, Address FROM Providers WHERE City = %s;", none) ∧
      templateHasSlot "SELECT Name, Contact, Address FROM Providers WHERE City = %s;" = true := by
  refine ⟨rfl, by decide, rfl, by decide⟩

/-- C8 (amended): for every known analysis name, `analysis_query` executes
the registered template through the query executor with the parameter
bound positionally if and only if the supplied parameter is truthy
(non-None, non-empty, non-zero) — whether the template expects a parameter
is not consulted. -/
theorem analysis_param_bound_iff_truthy (engine : Engine) (option : String)
    (param : Value) (sql : String) (h : analysis_queries option = some sql) :
    (vTruthy param = true →
        (analysis_query engine option param).call = some (sql, some [param])) ∧
      (vTruthy param = false →
        (analysis_query engine option param).call = some (sql, none)) := by
  constructor <;> intro ht <;> simp [analysis_query, h, ht]

/-- C8 witness: a truthy city binds the parameter for the one template
that has a slot. -/
theorem analysis_param_bound_iff_truthy_witness :
    vTruthy (Value.vstr "Chennai") = true ∧
      (analysis_query constEmptyEngine "Provider Contact Info by City"
        (Value.vstr "Chennai")).call =
        some ("SELECT Name, Contact, Address FROM Providers WHERE City = %s;",
          some [Value.vstr "Chennai"]) := by
  refine ⟨by decide, ?_⟩
  exact (analysis_param_bound_iff_truthy constEmptyEngine "Provider Contact Info by City"
    (Value.vstr "Chennai") _ rfl).1 (by decide)

/-- C9: the filtering rule of `create_record` / `update_record` compares by
Python equality against `None`, `""` and `0`, so every value equal to zero
under that equality — the boolean `False` and the float `0.0` included — is
dropped and can never be written. -/
theorem python_zero_equality_drops (db : DB) (tbl : String) (rid : Value) (sf : Bool) :
    (∀ v : Value, pyEq v (Value.vint 0) = true → droppedValue v = true) ∧
      droppedValue (Value.vbool false) = true ∧
      droppedValue (Value.vfloat 0) = true ∧
      (create_record db tbl
        [("Quantity", Value.vfloat 0), ("Status", Value.vbool false)] sf).sent = [] ∧
      (create_record db tbl
        [("Quantity", Value.vfloat 0), ("Status", Value.vbool false)] sf).report =
        Report.warning "No data to insert" ∧
      (update_record db "Claims" rid [("Status", Value.vbool false)] sf).sent = [] ∧
      (update_record db "Claims" rid [("Status", Value.vbool false)] sf).report =
        Report.warning "No fields to update" := by
  refine ⟨?_, by decide, by decide, rfl, rfl, rfl, rfl⟩
  intro v hv
  simp [droppedValue, hv]

/-- C9 witness: the float `0.0` is Python-equal to the integer `0` and is
dropped by the filtering rule. -/
theorem python_zero_equality_drops_witness :
    pyEq (Value.vfloat 0) (Value.vint 0) = true ∧
      droppedValue (Value.vfloat 0) = true :=
  ⟨by decide,
   (python_zero_equality_drops db0 "Providers" (Value.vint 1) false).1
     (Value.vfloat 0) (by decide)⟩

/-- C10: for every store and record id, when the primary-row DELETE of
`delete_record("Food_Listings", id)` raises, both statements were issued
but `conn.commit()` — which comes only after both — is never reached, so
neither deletion becomes durable: the store state is unchanged and in
particular the dependent Claims cleanup is never committed alone. -/
theorem delete_food_listing_atomic (db : DB) (rid : Value) (cRows : List Row)
    (hc : DB.getTable db "Claims" = some cRows) :
    (delete_record db "Food_Listings" rid false true).sent =
        [claimsCleanupStmt rid, ⟨deleteSqlText "Food_Listings" "Food_ID", [rid]⟩] ∧
      (delete_record db "Food_Listings" rid false true).committed = false ∧
      (delete_record db "Food_Listings" rid false true).db = db ∧
      (delete_record db "Food_Listings" rid false true).report =
        Report.error "Error deleting record: database error" := by
  have hdel1 : execDelete db "Claims" "Food_ID" rid =
      .ok (DB.setTable db "Claims" (cRows.filter (fun r => !rowMatches "Food_ID" rid r)),
           cRows.countP (rowMatches "Food_ID" rid)) := by
    unfold execDelete
    rw [hc]
  have hmain : delete_record db "Food_Listings" rid false true =
      deletePrimary db
        (DB.setTable db "Claims" (cRows.filter (fun r => !rowMatches "Food_ID" rid r)))
        "Food_Listings" "Food_ID" rid [claimsCleanupStmt rid] true := by
    show (match execDelete db "Claims" "Food_ID" rid with
      | Except.error e =>
          ({ sent := [claimsCleanupStmt rid], committed := false,
             report := .error ("Error deleting record: " ++ e), db := db } : CrudResult)
      | Except.ok (db1, _) =>
          deletePrimary db db1 "Food_Listings" "Food_ID" rid
            [claimsCleanupStmt rid] true) = _
    rw [hdel1]
  rw [hmain]
  exact ⟨rfl, rfl, rfl, rfl⟩

/-- C10 witness: with a Claims row referencing Food_ID 7 and a failing
primary DELETE, the store keeps that Claims row — nothing is committed. -/
theorem delete_food_listing_atomic_witness :
    DB.getTable dbW "Claims" = some [[("Claim_ID", Value.vint 3), ("Food_ID", Value.vint 7)]] ∧
      (delete_record dbW "Food_Listings" (Value.vint 7) false true).db = dbW ∧
      (delete_record dbW "Food_Listings" (Value.vint 7) false true).committed = false := by
  have h := delete_food_listing_atomic dbW (Value.vint 7)
    [[("Claim_ID", Value.vint 3), ("Food_ID", Value.vint 7)]] (by decide)
  exact ⟨by decide, h.2.2.1, h.2.1⟩
